import Mathlib

/-!
Verification development for the generated client-side message composer
`TemplateMessageComposer` of the `abstract` repository
(`app-template/packages/typescript/src/contracts/Template.message-composer.ts`).

The composer holds two identity strings (`sender`, `contractAddress`) and
exposes a single operation `updateConfig` that builds a wire-ready
`MsgExecuteContractEncodeObject` envelope: a fixed type-URL string together
with a record of sender, contract, a UTF-8 JSON payload encoding the
`update_config` action, and the (optional) funds attached to the call.

External dependencies of the composer (the JavaScript `JSON.stringify`
builtin, `toUtf8` from `@cosmjs/encoding`, `MsgExecuteContract.fromPartial`
from `cosmjs-types`, and `AppExecuteMsgFactory.executeApp` from
`@abstract-money/abstract.js`) are not part of the repository; they are
modelled here, faithful to the specification's description of their roles.
All definitions are executable and fuel-based recursion is used so that
concrete evaluations reduce definitionally.
-/

namespace AbstractTemplate

/-- Left brace character, written via its code point. -/
def lbrace : Char := Char.ofNat 123

/-- Right brace character, written via its code point. -/
def rbrace : Char := Char.ofNat 125

/-- Double-quote character, written via its code point. -/
def dquote : Char := Char.ofNat 34

/-- Backslash character, written via its code point. -/
def bslash : Char := Char.ofNat 92

/-- Colon character, the JSON key/value separator. -/
def colonChar : Char := ':'

/-- Comma character, the JSON member separator. -/
def commaChar : Char := ','

mutual

/-- JSON values, restricted to the forms the composer serializes and the
payload grammar needs: strings and objects (ordered key/value lists). -/
inductive Json where
  | str : String → Json
  | obj : JMembers → Json

/-- Ordered member list of a JSON object: key/value pairs. -/
inductive JMembers where
  | nil : JMembers
  | cons : String → Json → JMembers → JMembers

end

/-- JSON string escaping: a double quote or backslash is preceded by a
backslash; every other character is emitted as is (the composer's payload
contains no control characters). -/
def escapeChar (c : Char) : List Char :=
  if c = dquote ∨ c = bslash then [bslash, c] else [c]

/-- Quote a string as a JSON string literal. -/
def quoteString (s : String) : List Char :=
  dquote :: (s.data.flatMap escapeChar ++ [dquote])

mutual

/-- Modelled from the spec: the serialization half of the JavaScript `JSON`
builtin (`JSON.stringify`), which is not part of the repository, restricted
to strings and objects. -/
def stringifyChars : Json → List Char
  | Json.str s => quoteString s
  | Json.obj kvs => lbrace :: stringifyMembers kvs ++ [rbrace]

/-- Serialization of the member list of a JSON object, comma-separated. -/
def stringifyMembers : JMembers → List Char
  | JMembers.nil => []
  | JMembers.cons k v JMembers.nil => quoteString k ++ colonChar :: stringifyChars v
  | JMembers.cons k v (JMembers.cons k2 v2 rest) =>
      quoteString k ++ colonChar :: stringifyChars v
        ++ commaChar :: stringifyMembers (JMembers.cons k2 v2 rest)

end

/-- Modelled from the spec: `JSON.stringify` on the subset of JSON the
composer produces. -/
def Json.stringify (j : Json) : String :=
  String.mk (stringifyChars j)

/-- UTF-8 encoding of a single Unicode code point, as its byte list. -/
def utf8EncodeCodepoint (n : Nat) : List Nat :=
  if n < 128 then [n]
  else if n < 2048 then [192 + n / 64, 128 + n % 64]
  else if n < 65536 then [224 + n / 4096, 128 + (n / 64) % 64, 128 + n % 64]
  else [240 + n / 262144, 128 + (n / 4096) % 64, 128 + (n / 64) % 64, 128 + n % 64]

/-- Modelled from the spec: `toUtf8` from `@cosmjs/encoding`, which is not
part of the repository; it encodes a string as its UTF-8 byte sequence. -/
def toUtf8 (s : String) : List Nat :=
  s.data.flatMap (fun c => utf8EncodeCodepoint c.toNat)

/-- A coin attached to a contract execution: a denomination and an amount,
both strings, mirroring `Coin` from `@cosmjs/amino`. -/
structure Coin where
  denom : String
  amount : String
deriving DecidableEq

/-- The structured record carried by a `MsgExecuteContract` envelope:
sender, contract address, the UTF-8 JSON payload bytes, and the optional
funds sequence. -/
structure MsgExecuteContractValue where
  sender : String
  contract : String
  msg : List Nat
  funds : Option (List Coin)
deriving DecidableEq

/-- The wire-ready envelope returned by the composer: a type-URL string and
the structured `MsgExecuteContract` record. -/
structure MsgExecuteContractEncodeObject where
  typeUrl : String
  value : MsgExecuteContractValue
deriving DecidableEq

/-- Modelled from the spec: `MsgExecuteContract.fromPartial` from the external
`cosmjs-types` library, which is not part of the repository; per the spec it
builds the canonical structured record from the given fields, taking all
fields as given, with an absent funds argument staying absent in the record. -/
def MsgExecuteContract.fromPartialValue (sender : String) (contract : String)
    (msg : List Nat) (funds : Option (List Coin)) : MsgExecuteContractValue :=
  { sender := sender, contract := contract, msg := msg, funds := funds }

/-- Modelled from the spec: `AppExecuteMsgFactory.executeApp` from the
external `@abstract-money/abstract.js` library, which is not part of the
repository; per the spec it wraps the inner contract-specific action under a
single fixed well-known routing key so the receiving contract's dispatcher
can route it. The exact key name is the external library's contract; the
representative fixed key `"module"` is used here. -/
def AppExecuteMsgFactory.executeApp (msg : Json) : Json :=
  Json.obj (JMembers.cons "module" msg JMembers.nil)

/-- The composer: holds the two identity strings given at construction. -/
structure TemplateMessageComposer where
  sender : String
  contractAddress : String
deriving DecidableEq

/-- The constructor of `TemplateMessageComposer`: stores the two arguments
into the corresponding fields (the source also rebinds the `updateConfig`
method to the instance, which has no observable effect on the fields). -/
def TemplateMessageComposer.construct (sender : String) (contractAddress : String) :
    TemplateMessageComposer :=
  { sender := sender, contractAddress := contractAddress }

/-- The inner action payload built by `updateConfig`: the tagged variant
`update_config` carrying no fields, as the object literal in the source. -/
def updateConfigMsg : Json :=
  Json.obj (JMembers.cons "update_config" (Json.obj JMembers.nil) JMembers.nil)

/-- The `updateConfig` operation of the composer: builds the envelope with
the fixed type URL, the construction-time sender and contract address, the
UTF-8 bytes of the JSON serialization of the module-execute wrapping of the
`update_config` action, and the funds argument passed through. -/
def TemplateMessageComposer.updateConfig (composer : TemplateMessageComposer)
    (_funds : Option (List Coin)) : MsgExecuteContractEncodeObject :=
  let msg : Json := updateConfigMsg
  let moduleMsg : Json := AppExecuteMsgFactory.executeApp msg
  { typeUrl := "/cosmwasm.wasm.v1.MsgExecuteContract"
    value := MsgExecuteContract.fromPartialValue composer.sender composer.contractAddress
      (toUtf8 (Json.stringify moduleMsg)) _funds }

/-- State-passing embedding of `updateConfig`, making effects explicit: the
method body reads `composer.sender` and `composer.contractAddress` and
assigns to neither field, and it does not write to the funds array, so the
post-call composer state and the funds argument are returned unchanged
alongside the envelope. -/
def TemplateMessageComposer.updateConfigSt (composer : TemplateMessageComposer)
    (_funds : Option (List Coin)) :
    MsgExecuteContractEncodeObject × TemplateMessageComposer × Option (List Coin) :=
  (composer.updateConfig _funds, composer, _funds)

/-- Whitespace characters skipped by the JSON grammar. -/
def isJsonWs (c : Char) : Bool :=
  c == ' ' || c == '\t' || c == '\n' || c == '\r'

/-- Drop leading JSON whitespace. -/
def skipWs : List Char → List Char
  | [] => []
  | c :: rest => if isJsonWs c then skipWs rest else c :: rest

/-- Resolve a single-character JSON escape sequence. -/
def unescapeChar (c : Char) : Option Char :=
  if c = dquote then some dquote
  else if c = bslash then some bslash
  else if c = '/' then some '/'
  else if c = 'n' then some '\n'
  else if c = 't' then some '\t'
  else if c = 'r' then some '\r'
  else if c = 'b' then some (Char.ofNat 8)
  else if c = 'f' then some (Char.ofNat 12)
  else none

/-- Parse the body of a JSON string literal after its opening quote,
returning the decoded characters and the remaining input. -/
def parseStrBody : List Char → Option (List Char × List Char)
  | [] => none
  | c :: rest =>
    if c = dquote then some ([], rest)
    else if c = bslash then
      match rest with
      | [] => none
      | e :: rest2 =>
        match unescapeChar e, parseStrBody rest2 with
        | some d, some (acc, r) => some (d :: acc, r)
        | _, _ => none
    else
      match parseStrBody rest with
      | some (acc, r) => some (c :: acc, r)
      | none => none

mutual

/-- Fuel-based recursive-descent parser for a JSON value (string or object),
the decoding half of the JSON round trip; returns the value and the
remaining input. -/
def parseValueFuel : Nat → List Char → Option (Json × List Char)
  | 0, _ => none
  | Nat.succ fuel, s =>
    match skipWs s with
    | [] => none
    | c :: rest =>
      if c = dquote then
        match parseStrBody rest with
        | some (cs, r) => some (Json.str (String.mk cs), r)
        | none => none
      else if c = lbrace then
        match skipWs rest with
        | [] => none
        | c2 :: rest2 =>
          if c2 = rbrace then some (Json.obj JMembers.nil, rest2)
          else
            match parseMembersFuel fuel (c2 :: rest2) with
            | some (kvs, r) => some (Json.obj kvs, r)
            | none => none
      else none

/-- Parse one or more JSON object members up to and including the closing
brace, returning the key/value list and the remaining input. -/
def parseMembersFuel : Nat → List Char → Option (JMembers × List Char)
  | 0, _ => none
  | Nat.succ fuel, s =>
    match skipWs s with
    | [] => none
    | c :: rest =>
      if c = dquote then
        match parseStrBody rest with
        | none => none
        | some (kcs, r1) =>
          match skipWs r1 with
          | [] => none
          | c2 :: r2 =>
            if c2 = colonChar then
              match parseValueFuel fuel r2 with
              | none => none
              | some (v, r3) =>
                match skipWs r3 with
                | [] => none
                | c3 :: r4 =>
                  if c3 = commaChar then
                    match parseMembersFuel fuel r4 with
                    | some (kvs, r5) => some (JMembers.cons (String.mk kcs) v kvs, r5)
                    | none => none
                  else if c3 = rbrace then
                    some (JMembers.cons (String.mk kcs) v JMembers.nil, r4)
                  else none
            else none
      else none

end

/-- Parse a complete JSON document from a character list: one value followed
only by whitespace. -/
def parseJsonChars (cs : List Char) : Option Json :=
  match parseValueFuel (cs.length + 1) cs with
  | some (j, r) => if skipWs r = [] then some j else none
  | none => none

/-- Decode a single UTF-8 encoded code point from the front of a byte list,
checking continuation bytes and minimal-length encoding; returns the code
point and the remaining bytes. -/
def utf8DecodeOne : List Nat → Option (Nat × List Nat)
  | [] => none
  | b :: rest =>
    if b < 128 then some (b, rest)
    else if 194 ≤ b ∧ b < 224 then
      match rest with
      | [] => none
      | b2 :: rest2 =>
        if 128 ≤ b2 ∧ b2 < 192 then some ((b - 192) * 64 + (b2 - 128), rest2)
        else none
    else if 224 ≤ b ∧ b < 240 then
      match rest with
      | b2 :: b3 :: rest3 =>
        if 128 ≤ b2 ∧ b2 < 192 ∧ 128 ≤ b3 ∧ b3 < 192 then
          let n := (b - 224) * 4096 + (b2 - 128) * 64 + (b3 - 128)
          if 2048 ≤ n ∧ ¬(55296 ≤ n ∧ n < 57344) then some (n, rest3) else none
        else none
      | _ => none
    else if 240 ≤ b ∧ b < 245 then
      match rest with
      | b2 :: b3 :: b4 :: rest4 =>
        if 128 ≤ b2 ∧ b2 < 192 ∧ 128 ≤ b3 ∧ b3 < 192 ∧ 128 ≤ b4 ∧ b4 < 192 then
          let n := (b - 240) * 262144 + (b2 - 128) * 4096 + (b3 - 128) * 64 + (b4 - 128)
          if 65536 ≤ n ∧ n < 1114112 then some (n, rest4) else none
        else none
      | _ => none
    else none

/-- Fuel-based UTF-8 decoder for a whole byte list. -/
def utf8DecodeFuel : Nat → List Nat → Option (List Char)
  | 0, _ => none
  | Nat.succ _, [] => some []
  | Nat.succ fuel, bs =>
    match utf8DecodeOne bs with
    | none => none
    | some (n, rest) =>
      match utf8DecodeFuel fuel rest with
      | some cs => some (Char.ofNat n :: cs)
      | none => none

/-- Decode a UTF-8 byte sequence to its character list; each code point
consumes at least one byte, so fuel of one more than the length suffices. -/
def utf8Decode (bs : List Nat) : Option (List Char) :=
  utf8DecodeFuel (bs.length + 1) bs

/-- Decode a UTF-8 byte payload and parse it as JSON, the composite decoding
operation the round-trip property speaks about. -/
def decodeJsonUtf8 (bs : List Nat) : Option Json :=
  match utf8Decode bs with
  | some cs => parseJsonChars cs
  | none => none

/-- The shape required of the decoded payload: an object with exactly one
top-level key whose value is an object with exactly one key `update_config`
mapping to an empty object. -/
def singleUpdateConfigShape : Json → Bool
  | Json.obj (JMembers.cons _
      (Json.obj (JMembers.cons k (Json.obj JMembers.nil) JMembers.nil))
      JMembers.nil) => k == "update_config"
  | _ => false

/-- C1: for every composer instance and every funds argument (present or
absent), the envelope returned by `updateConfig` has its `typeUrl` field
equal to the constant string `"/cosmwasm.wasm.v1.MsgExecuteContract"`. -/
theorem updateConfig_typeUrl_fixed (c : TemplateMessageComposer)
    (f : Option (List Coin)) :
    (c.updateConfig f).typeUrl = "/cosmwasm.wasm.v1.MsgExecuteContract" := rfl

/-- C2: for every composer constructed from non-empty sender and
contract-address strings (including strings with non-ASCII characters) and
every funds argument, the envelope returned by `updateConfig` has
`value.sender` equal to the constructor's sender and `value.contract` equal
to the constructor's contract address. -/
theorem updateConfig_identity_passthrough (s c : String) (f : Option (List Coin))
    (_hs : s ≠ "") (_hc : c ≠ "") :
    ((TemplateMessageComposer.construct s c).updateConfig f).value.sender = s ∧
    ((TemplateMessageComposer.construct s c).updateConfig f).value.contract = c :=
  ⟨rfl, rfl⟩

/-- Witness for C2 at concrete non-empty identities containing non-ASCII
characters. -/
theorem updateConfig_identity_passthrough_witness :
    "sénder✓" ≠ "" ∧ "cöntract" ≠ "" ∧
    (((TemplateMessageComposer.construct "sénder✓" "cöntract").updateConfig
        none).value.sender = "sénder✓" ∧
     ((TemplateMessageComposer.construct "sénder✓" "cöntract").updateConfig
        none).value.contract = "cöntract") :=
  ⟨by decide, by decide,
    updateConfig_identity_passthrough "sénder✓" "cöntract" none (by decide) (by decide)⟩

/-- C3: for every composer, calling `updateConfig` with the funds argument
omitted leaves the output funds field absent, and calling it with any given
coin sequence (for example a single coin with denomination `uusd` and amount
`100`) yields that same sequence, unmodified and in the same order. -/
theorem updateConfig_funds_passthrough (c : TemplateMessageComposer) :
    (c.updateConfig none).value.funds = none ∧
    ∀ fs : List Coin, (c.updateConfig (some fs)).value.funds = some fs :=
  ⟨rfl, fun _ => rfl⟩

/-- C4: the build operation is deterministic — two calls of `updateConfig`
on equal composers with equal funds arguments yield identical envelopes
(and in particular identical payload bytes). -/
theorem updateConfig_deterministic (c₁ c₂ : TemplateMessageComposer)
    (f₁ f₂ : Option (List Coin)) (hc : c₁ = c₂) (hf : f₁ = f₂) :
    c₁.updateConfig f₁ = c₂.updateConfig f₂ := by
  subst hc
  subst hf
  rfl

/-- Witness for C4 at a concrete composer and funds list. -/
theorem updateConfig_deterministic_witness :
    (TemplateMessageComposer.construct "abstract1sender..."
        "abstract1contract...").updateConfig (some [⟨"uusd", "100"⟩]) =
      (TemplateMessageComposer.construct "abstract1sender..."
        "abstract1contract...").updateConfig (some [⟨"uusd", "100"⟩]) :=
  updateConfig_deterministic _ _ _ _ rfl rfl

/-- C5: for every composer and every funds argument, decoding the UTF-8 byte
payload `value.msg` of the returned envelope as JSON succeeds and yields an
object with exactly one top-level key, whose nested object has exactly one
key `update_config` mapping to an empty object. -/
theorem updateConfig_msg_roundtrip (c : TemplateMessageComposer)
    (f : Option (List Coin)) :
    ∃ j, decodeJsonUtf8 ((c.updateConfig f).value.msg) = some j ∧
      singleUpdateConfigShape j = true :=
  ⟨AppExecuteMsgFactory.executeApp updateConfigMsg, rfl, rfl⟩

/-- C6: a composer constructed with sender `abstract1sender...` and contract
address `abstract1contract...`, when `updateConfig` is called with no funds,
produces exactly the envelope with the fixed type URL, that sender and
contract, the UTF-8 bytes of the module-execute wrapping of the
`update_config` action as payload, and absent funds. -/
theorem updateConfig_end_to_end :
    (TemplateMessageComposer.construct "abstract1sender..."
        "abstract1contract...").updateConfig none =
      { typeUrl := "/cosmwasm.wasm.v1.MsgExecuteContract"
        value :=
          { sender := "abstract1sender..."
            contract := "abstract1contract..."
            msg := toUtf8 "\x7b\"module\":\x7b\"update_config\":\x7b\x7d\x7d\x7d"
            funds := none } } := by decide

/-- C7: for every input, including empty sender and contract strings,
construction followed by `updateConfig` performs no validation and raises no
error of its own: it always returns the fully built envelope, whatever the
field values are. -/
theorem updateConfig_no_validation (s c : String) (f : Option (List Coin)) :
    (TemplateMessageComposer.construct s c).updateConfig f =
      { typeUrl := "/cosmwasm.wasm.v1.MsgExecuteContract"
        value :=
          { sender := s
            contract := c
            msg := toUtf8 (Json.stringify (AppExecuteMsgFactory.executeApp updateConfigMsg))
            funds := f } } := rfl

/-- C8: `updateConfig` is a pure transformation — in the state-passing
embedding of the call, the composer's fields and the funds argument are
returned unchanged, and the produced envelope is exactly the pure result, so
the composer is reusable across calls. -/
theorem updateConfig_pure_frame (c : TemplateMessageComposer)
    (f : Option (List Coin)) :
    (c.updateConfigSt f).2.1 = c ∧ (c.updateConfigSt f).2.2 = f ∧
    (c.updateConfigSt f).1 = c.updateConfig f :=
  ⟨rfl, rfl, rfl⟩

/-- C9: the constructor stores exactly its two arguments — for all strings
`s` and `c`, the composer constructed from `(s, c)` has `sender = s` and
`contractAddress = c`, with no transformation applied. -/
theorem construct_stores_arguments (s c : String) :
    (TemplateMessageComposer.construct s c).sender = s ∧
    (TemplateMessageComposer.construct s c).contractAddress = c :=
  ⟨rfl, rfl⟩

/-- C10: the serialized payload bytes `value.msg` are independent of the
composer's identities and of the funds argument — any two calls produce
identical byte sequences. -/
theorem updateConfig_msg_input_independent (c₁ c₂ : TemplateMessageComposer)
    (f₁ f₂ : Option (List Coin)) :
    (c₁.updateConfig f₁).value.msg = (c₂.updateConfig f₂).value.msg := rfl

end AbstractTemplate
